import Mathlib

/-!
Shallow embedding of `src/app.py` (fardeenkarim/website-checker).

The program has two parts: `check_website` (the Inspector), which fetches one
URL and derives a flat record of CMS/marketing signals from the response, and
`main` (the Batch Runner), which drives `check_website` over a CSV of URLs and
flushes results to an output CSV in batches.

Modelling conventions:
* The HTTP transport (`requests.get`) and the wall clock are modelled by an
  oracle `fetch : String -> FetchResult` passed to `check_website`: the oracle
  either reports an exception (with the elapsed time at which it was raised,
  which the code never observes) or a response together with the elapsed time
  of the fetch.  Elapsed times are exact rationals; Python floats are
  abstracted to `Rat` and `round(x, 2)` is modelled by `round2` below
  (round-half-to-even, Python's rounding mode).
* BeautifulSoup is an external collaborator (spec section 1), so the parsed
  document is part of the oracle: a `Response` carries, besides `status_code`
  and `text`, the outcome `parse : Except String Soup` of constructing the
  soup (an exception message, or the abstract parsed document).  A `Soup`
  exposes exactly the queries the program makes: the title tag's `.string`
  and the list of `<meta>` tags with their `name`/`content` attributes.
* Python string operations are embedded as executable functions on `String` /
  `List Char` (`pyLower`, `pyStartsWith`, `pyContains`, `pyStrip`, `pySlice`,
  `pyJoin`); they agree with Python's on the ASCII range plus the uncased
  copyright glyph, which covers everything the program matches on.
* The three regular expressions of the program are embedded as hand-rolled
  scanners with Python `re` semantics (leftmost match, non-greedy `.*?`, `.`
  not matching a newline, `re.findall` resuming after each match).
-/

/-! ## Python string primitives -/

/-- Embedding of Python `str.lower()` (per code point; faithful on the ASCII
letters and uncased characters the program searches for). -/
def pyLower (s : String) : String :=
  String.mk (s.data.map Char.toLower)

/-- Embedding of Python `str.startswith(pre)`. -/
def pyStartsWith (s pre : String) : Bool :=
  pre.data.isPrefixOf s.data

/-- Substring containment on character lists: `containsSub pat hay` is true
iff `pat` occurs contiguously in `hay`. -/
def containsSub (pat : List Char) : List Char → Bool
  | [] => pat.isEmpty
  | c :: rest => pat.isPrefixOf (c :: rest) || containsSub pat rest

/-- Embedding of Python `needle in hay` on strings. -/
def pyContains (hay needle : String) : Bool :=
  containsSub needle.data hay.data

/-- Embedding of Python `str.strip()` (whitespace strip at both ends). -/
def pyStrip (s : String) : String :=
  String.mk (((s.data.dropWhile Char.isWhitespace).reverse.dropWhile
    Char.isWhitespace).reverse)

/-- Embedding of Python slicing `s[:n]`. -/
def pySlice (s : String) (n : Nat) : String :=
  String.mk (s.data.take n)

/-- Embedding of Python `sep.join(xs)`. -/
def pyJoin (sep : String) : List String → String
  | [] => ""
  | [x] => x
  | x :: y :: xs => x ++ sep ++ pyJoin sep (y :: xs)

/-- Embedding of Python `round(q, 2)`: round to 2 decimal places,
half-to-even (floats abstracted to exact rationals). -/
def round2 (q : ℚ) : ℚ :=
  let x := q * 100
  let f : ℤ := ⌊x⌋
  let r : ℚ := x - (f : ℚ)
  let n : ℤ :=
    if r < 1/2 then f
    else if 1/2 < r then f + 1
    else if f % 2 = 0 then f else f + 1
  (n : ℚ) / 100

/-! ## The three regular expressions of `check_website` -/

/-- Character class `[a-z0-9_\-]` of the theme regex (ASCII, as produced by
the lower-cased body the program scans). -/
def isThemeChar (c : Char) : Bool :=
  (('a' ≤ c && c ≤ 'z') || c.isDigit || c == '_' || c == '-')

/-- Character class `[a-zA-Z0-9_\-]` of the plugin regex. -/
def isPluginChar (c : Char) : Bool :=
  (c.isAlpha || c.isDigit || c == '_' || c == '-')

/-- Attempt to match `wp-content/themes/([a-z0-9_\-]+)/` at the head of `l`,
returning the captured slug.  The class excludes `/`, so the greedy `+` run
is the maximal class run and the next character must be `/`. -/
def matchThemeAt (l : List Char) : Option (List Char) :=
  if "wp-content/themes/".data.isPrefixOf l then
    let rest := l.drop 18
    let slug := rest.takeWhile isThemeChar
    if slug.isEmpty then none
    else match rest.drop slug.length with
      | '/' :: _ => some slug
      | _ => none
  else none

/-- `re.search` of the theme pattern: first (leftmost) match's capture group,
as in line 64 of `app.py`. -/
def findTheme : List Char → Option (List Char)
  | [] => none
  | c :: rest =>
    match matchThemeAt (c :: rest) with
    | some slug => some slug
    | none => findTheme rest

/-- Attempt to match `(?:copyright|©)` at the head of `l`; returns the number
of characters consumed.  The two alternatives start with distinct characters,
so at most one can match. -/
def matchCopyrightKeyword (l : List Char) : Option Nat :=
  if "copyright".data.isPrefixOf l then some 9
  else if "©".data.isPrefixOf l then some 1
  else none

/-- Attempt to match `20\d{2}` at the head of `l` (ASCII digits, as in the
bodies the lower-cased page text contains). -/
def yearAt : List Char → Option (List Char)
  | '2' :: '0' :: c :: d :: _ =>
    if c.isDigit && d.isDigit then some ['2', '0', c, d] else none
  | _ => none

/-- The `.*?(20\d{2})` tail of the copyright regex starting right after the
keyword: the non-greedy span takes the nearest year, and `.` does not match a
newline, so scanning stops at the first `\n`. -/
def findYearFrom : List Char → Option (List Char)
  | [] => none
  | c :: rest =>
    match yearAt (c :: rest) with
    | some y => some y
    | none => if c == '\n' then none else findYearFrom rest

/-- `re.search` of `(?:copyright|©).*?(20\d{2})` (line 70 of `app.py`):
leftmost position where the keyword matches and a year is reachable on the
same line; returns the captured year digits. -/
def findCopyright : List Char → Option (List Char)
  | [] => none
  | c :: rest =>
    match matchCopyrightKeyword (c :: rest) with
    | some k =>
      match findYearFrom ((c :: rest).drop k) with
      | some y => some y
      | none => findCopyright rest
    | none => findCopyright rest

/-- Attempt to match `wp-content/plugins/([a-zA-Z0-9_\-]+)/` at the head of
`l`; returns the captured slug together with the list remaining after the
whole match (where `re.findall` resumes scanning). -/
def matchPluginAt (l : List Char) : Option (List Char × List Char) :=
  if "wp-content/plugins/".data.isPrefixOf l then
    let rest := l.drop 19
    let slug := rest.takeWhile isPluginChar
    if slug.isEmpty then none
    else match rest.drop slug.length with
      | '/' :: after => some (slug, after)
      | _ => none
  else none

/-- Fuel-indexed scanner behind `findPlugins`.  Each step either consumes one
character (no match here) or a whole match (at least 21 characters), so fuel
equal to the list length never runs out and the fuel is only a termination
device. -/
def findPluginsAux : Nat → List Char → List (List Char)
  | 0, _ => []
  | _ + 1, [] => []
  | fuel + 1, c :: rest =>
    match matchPluginAt (c :: rest) with
    | some (slug, after) => slug :: findPluginsAux fuel after
    | none => findPluginsAux fuel rest

/-- `re.findall` of the plugin pattern (line 78 of `app.py`): all
non-overlapping matches' capture groups, left to right. -/
def findPlugins (l : List Char) : List (List Char) :=
  findPluginsAux l.length l

/-! ## Data model -/

/-- The `status` cell of a record: Python stores either the integer HTTP
status code or an error-description string in the same dict slot. -/
inductive Status where
  | code (n : Int)
  | err (s : String)
deriving DecidableEq

/-- True iff the status is a string beginning with `"Error:"`. -/
def Status.isErrorString : Status → Bool
  | .err s => pyStartsWith s "Error:"
  | .code _ => false

/-- A `<meta>` tag as the program queries it: its `name` and `content`
attributes (absent attributes are `none`). -/
structure MetaTag where
  name : Option String
  content : Option String
deriving DecidableEq

/-- The abstract result of `BeautifulSoup(response.text, 'html.parser')`,
exposing exactly the queries the program makes.  `titleString = none` models
a document with no `<title>` tag; `some ts` models a title tag whose
`.string` is `ts` (`none` for a title with no text node). -/
structure Soup where
  titleString : Option (Option String)
  metas : List MetaTag
deriving DecidableEq

/-- An HTTP response as the program observes it.  `parse` is the outcome of
handing `text` to BeautifulSoup (the parser is an external collaborator, so
its output is part of the oracle): `.error msg` models a parse exception. -/
structure Response where
  status_code : Int
  text : String
  parse : Except String Soup

/-- Outcome of one `requests.get` call: an exception (with its message and
the elapsed wall-clock time at which it was raised, which the program never
reads) or a response after `elapsed` seconds. -/
inductive FetchResult where
  | exn (msg : String) (elapsed : ℚ)
  | ok (elapsed : ℚ) (resp : Response)

/-- The flat result dict of `check_website` (lines 8-27 of `app.py`). -/
structure SiteRecord where
  url : String
  is_wordpress : Bool
  plugin_count : Nat
  plugin_names : String
  load_time_seconds : ℚ
  status : Status
  site_title : String
  meta_description : String
  theme : String
  copyright_year : String
  has_woocommerce : Bool
  has_shopify : Bool
  has_elementor : Bool
  has_beaver_builder : Bool
  has_analytics : Bool
  has_pixel : Bool
  is_https : Bool
  has_viewport : Bool

/-- The initial `results` dict (lines 8-27): note `url` holds the original
argument, assigned before the normalization at line 30 rebinds the local
variable. -/
def defaultRecord (url : String) : SiteRecord where
  url := url
  is_wordpress := false
  plugin_count := 0
  plugin_names := ""
  load_time_seconds := 0
  status := .err "Error"
  site_title := ""
  meta_description := ""
  theme := ""
  copyright_year := ""
  has_woocommerce := false
  has_shopify := false
  has_elementor := false
  has_beaver_builder := false
  has_analytics := false
  has_pixel := false
  is_https := false
  has_viewport := false

/-! ## The Inspector -/

/-- Lines 30-31: prepend `https://` when the url does not start with
`http`. -/
def normalizeUrl (url : String) : String :=
  if !(pyStartsWith url "http") then "https://" ++ url else url

/-- `soup.find('meta', attrs=\x7b'name': nm\x7d)`: first meta tag whose `name`
attribute equals `nm` exactly. -/
def findMetaByName (nm : String) (metas : List MetaTag) : Option MetaTag :=
  metas.find? (fun m => m.name == some nm)

/-- Does the tag's `content` attribute exist and match
`re.compile(r'WordPress', re.I)` (i.e. contain "wordpress"
case-insensitively)? -/
def contentHasWordPress (m : MetaTag) : Bool :=
  match m.content with
  | some c => pyContains (pyLower c) "wordpress"
  | none => false

/-- Line 58: `soup.find('meta', attrs=\x7b'name': 'generator', 'content':
re.compile(r'WordPress', re.I)\x7d)`. -/
def findGeneratorWP (metas : List MetaTag) : Option MetaTag :=
  metas.find? (fun m => (m.name == some "generator") && contentHasWordPress m)

/-- The status-200 content-inspection block (lines 42-96 of `app.py`),
updating the record built so far from the body text and the parsed soup. -/
def inspectBody (r0 : SiteRecord) (text : String) (soup : Soup) : SiteRecord :=
  let html := pyLower text
  let site_title :=
    match soup.titleString with
    | some ts =>
      match ts with
      | some s => if s == "" then "" else pyStrip s
      | none => ""
    | none => r0.site_title
  let meta_description :=
    match findMetaByName "description" soup.metas with
    | some m =>
      match m.content with
      | some c => if c == "" then r0.meta_description else pyStrip c
      | none => r0.meta_description
    | none => r0.meta_description
  let is_wordpress :=
    if pyContains html "wp-content" then true
    else if (findGeneratorWP soup.metas).isSome then true
    else r0.is_wordpress
  let theme :=
    match findTheme html.data with
    | some slug => String.mk slug
    | none => r0.theme
  let copyright_year :=
    match findCopyright html.data with
    | some y => String.mk y
    | none => r0.copyright_year
  let uniquePlugins := (findPlugins html.data).dedup
  { r0 with
    site_title := site_title
    meta_description := meta_description
    is_wordpress := is_wordpress
    theme := theme
    copyright_year := copyright_year
    plugin_count := uniquePlugins.length
    plugin_names := pyJoin ", " (uniquePlugins.map (fun s => String.mk s))
    has_woocommerce := pyContains html "woocommerce"
    has_shopify := pyContains html "shopify"
    has_elementor := pyContains html "elementor"
    has_beaver_builder := pyContains html "beaver-builder"
    has_analytics :=
      pyContains html "googletagmanager" || pyContains html "google-analytics"
    has_pixel :=
      pyContains html "facebook-pixel" || pyContains html "fbevents.js"
    has_viewport := (findMetaByName "viewport" soup.metas).isSome }

/-- The Inspector, `check_website` (lines 7-102 of `app.py`), with the HTTP
transport and the clock supplied by the `fetch` oracle. -/
def check_website (fetch : String → FetchResult) (url : String) : SiteRecord :=
  let r0 := defaultRecord url
  let url1 := normalizeUrl url
  let r1 := { r0 with is_https := pyStartsWith url1 "https" }
  match fetch url1 with
  | .exn msg _ =>
    { r1 with status := .err ("Error: " ++ msg), plugin_names := "" }
  | .ok elapsed resp =>
    let r2 := { r1 with
      load_time_seconds := round2 elapsed
      status := .code resp.status_code }
    if resp.status_code == 200 then
      match resp.parse with
      | .error msg =>
        { r2 with status := .err ("Error: " ++ msg), plugin_names := "" }
      | .ok soup => inspectBody r2 resp.text soup
    else r2

/-! ## The Batch Runner -/

/-- `BATCH_SIZE = 100` (line 107 of `app.py`). -/
def BATCH_SIZE : Nat := 100

/-- The output header (lines 126-133). -/
def fieldnames : List String :=
  ["url", "status", "load_time_seconds",
   "site_title", "meta_description", "copyright_year",
   "is_wordpress", "theme", "plugin_count", "plugin_names",
   "has_woocommerce", "has_shopify", "has_elementor", "has_beaver_builder",
   "has_analytics", "has_pixel",
   "is_https", "has_viewport"]

/-- Lines 150-153: `for key in fieldnames: if key not in result: result[key] =
""`.  Every entry of `fieldnames` is a field `check_website` assigns in its
initial dict, so the loop never adds a key; on the structure embedding it is
the identity. -/
def ensureAllKeys (r : SiteRecord) : SiteRecord := r

/-- Line 158: the operator-display title, truncated to 50 characters with an
ellipsis when longer. -/
def displayTitle (r : SiteRecord) : String :=
  if r.site_title.data.length > 50 then pySlice r.site_title 50 ++ "..."
  else r.site_title

/-- Line 161: the operator-display plugin list, sliced to 60 characters. -/
def displayPlugins (r : SiteRecord) : String :=
  pySlice r.plugin_names 60 ++ "..."

/-- Lines 112-117: read the input CSV, keeping the first cell of each
non-empty row, stripped. -/
def readWebsites (rows : List (List String)) : List String :=
  rows.filterMap (fun row =>
    match row with
    | [] => none
    | x :: _ => some (pyStrip x))

/-- One row of the output CSV, at the granularity the Batch Runner controls:
either the header or the (unserialized) record handed to `writer.writerow`
(CSV serialization is a thin external adapter per the spec). -/
inductive OutRow where
  | header (cols : List String)
  | data (r : SiteRecord)

/-- Observable outcome of one `main` run: the output file (`none` if it was
never created), the flush events with the records each one appended, the
truncated per-URL display lines, and whether the missing-input error was
reported. -/
structure RunOutput where
  outputFile : Option (List OutRow)
  flushes : List (List SiteRecord)
  displays : List (String × String)
  errorReported : Bool

/-- The main loop (lines 141-172): walk the URLs with a 1-based index,
buffering records and flushing whenever the buffer reaches `BATCH_SIZE` or
the current URL is the last one; returns the flush events and the display
lines. -/
def processAll (fetch : String → FetchResult) (total : Nat) :
    List String → Nat → List SiteRecord →
    (List (List SiteRecord) × List (String × String))
  | [], _, _ => ([], [])
  | url :: rest, idx, buf =>
    let r := ensureAllKeys (check_website fetch url)
    let buf1 := buf ++ [r]
    if BATCH_SIZE ≤ buf1.length ∨ idx = total then
      let p := processAll fetch total rest (idx + 1) []
      (buf1 :: p.1, (displayTitle r, displayPlugins r) :: p.2)
    else
      let p := processAll fetch total rest (idx + 1) buf1
      (p.1, (displayTitle r, displayPlugins r) :: p.2)

/-- `main` (lines 104-177): a missing input file is reported and aborts the
run before the output file is created; otherwise the header is written first
and each flush appends its batch of records. -/
def mainRun (fetch : String → FetchResult)
    (input : Option (List (List String))) : RunOutput :=
  match input with
  | none =>
    { outputFile := none, flushes := [], displays := [], errorReported := true }
  | some rows =>
    let websites := readWebsites rows
    let p := processAll fetch websites.length websites 1 []
    { outputFile := some (OutRow.header fieldnames :: p.1.flatten.map OutRow.data)
      flushes := p.1
      displays := p.2
      errorReported := false }

/-! ## Spec-side definition for claims about "a recognized URI scheme"

The code's normalization test is `url.startswith('http')` (line 30).  The
spec instead speaks of the input "lacking a recognized URI scheme"; to state
those claims we need a definition that follows the spec's words, namely the
standard (RFC 3986) scheme syntax `ALPHA *( ALPHA / DIGIT / "+" / "-" / "." )
":"`.  This definition is written from the spec's words, not from the
source, and exists only to compare the two. -/

/-- Helper for `hasRecognizedScheme`: after the leading letter, scheme
characters until a `:` is found. -/
def schemeRest : List Char → Bool
  | [] => false
  | c :: rest =>
    if c == ':' then true
    else (c.isAlpha || c.isDigit || c == '+' || c == '-' || c == '.') &&
      schemeRest rest

/-- Does the URL begin with a syntactically valid URI scheme followed by
`:`? (spec-side notion of "a recognized URI scheme"). -/
def hasRecognizedScheme (url : String) : Bool :=
  match url.data with
  | [] => false
  | c :: rest => c.isAlpha && schemeRest rest

/-! ## Concrete fixtures used by witnesses and counterexamples -/

/-- A parsed document with no title and no meta tags. -/
def soupEmpty : Soup := { titleString := none, metas := [] }

/-- A fetch oracle whose GET always raises (message "timed out") after 10
seconds of wall-clock time. -/
def fetchTimeout : String → FetchResult :=
  fun _ => .exn "timed out" 10

/-- A fetch oracle returning a 200 response with the given body and an empty
parsed document, after 1 second. -/
def mkFetch200 (body : String) : String → FetchResult :=
  fun _ => .ok 1 { status_code := 200, text := body, parse := .ok soupEmpty }

/-- A fetch oracle returning a 404 response whose body nevertheless mentions
a plugin path. -/
def fetch404Plugins : String → FetchResult :=
  fun _ => .ok 1 { status_code := 404, text := "wp-content/plugins/foo/",
                   parse := .ok soupEmpty }

/-- A 200 response whose raw body contains `WP-CONTENT` (upper case) and no
meta tags. -/
def fetchUpperWP : String → FetchResult :=
  fun _ => .ok 1 { status_code := 200, text := "WP-CONTENT",
                   parse := .ok soupEmpty }

/-- A 200 response whose body repeats one plugin slug and adds another. -/
def respDup : Response :=
  { status_code := 200
    text := "wp-content/plugins/a/ wp-content/plugins/a/ wp-content/plugins/b/"
    parse := .ok soupEmpty }

/-- Fetch oracle delivering `respDup`. -/
def fetchDup : String → FetchResult := fun _ => .ok 1 respDup

/-! ## Helper lemmas -/

/-- A record produced by `check_website` keeps the original input in its
`url` field in every branch. -/
theorem check_website_url_eq (fetch : String → FetchResult) (url : String) :
    (check_website fetch url).url = url := by
  simp only [check_website]
  cases fetch (normalizeUrl url) with
  | exn m t => rfl
  | ok t resp =>
    by_cases h : resp.status_code == 200
    · simp only [h, if_true]
      cases resp.parse with
      | error m => rfl
      | ok soup => rfl
    · simp only [h, if_false]
      rfl

/-- `is_https` equals the start-check computed from the normalized URL in
every branch of `check_website` (it is assigned once, at line 33, before the
fetch). -/
theorem check_website_is_https_eq (fetch : String → FetchResult)
    (url : String) :
    (check_website fetch url).is_https
      = pyStartsWith (normalizeUrl url) "https" := by
  simp only [check_website]
  cases fetch (normalizeUrl url) with
  | exn m t => rfl
  | ok t resp =>
    by_cases h : resp.status_code == 200
    · simp only [h, if_true]
      cases resp.parse with
      | error m => rfl
      | ok soup => rfl
    · simp only [h, if_false]
      rfl

/-- When the GET returns a response, `load_time_seconds` is the rounded
elapsed time in every subsequent branch (non-200, parse failure, full
inspection). -/
theorem check_website_load_time_ok (fetch : String → FetchResult)
    (url : String) (t : ℚ) (resp : Response)
    (h : fetch (normalizeUrl url) = .ok t resp) :
    (check_website fetch url).load_time_seconds = round2 t := by
  simp only [check_website, h]
  by_cases h2 : resp.status_code == 200
  · simp only [h2, if_true]
    cases resp.parse with
    | error m => rfl
    | ok soup => rfl
  · simp only [h2, if_false]
    rfl

/-- When the GET raises, `end_time` is never taken and `load_time_seconds`
keeps its default 0. -/
theorem check_website_load_time_exn (fetch : String → FetchResult)
    (url : String) (m : String) (t : ℚ)
    (h : fetch (normalizeUrl url) = .exn m t) :
    (check_website fetch url).load_time_seconds = 0 := by
  simp only [check_website, h]
  rfl

/-- A list is a Boolean prefix of itself extended by anything. -/
theorem isPrefixOf_append_self (p t : List Char) :
    p.isPrefixOf (p ++ t) = true := by
  induction p with
  | nil => simp
  | cons c cs ih => simp [List.isPrefixOf, ih]

/-- If an extension of `p` is a Boolean prefix of `l`, so is `p`. -/
theorem isPrefixOf_append_left (p q l : List Char)
    (h : (p ++ q).isPrefixOf l = true) : p.isPrefixOf l = true := by
  induction p generalizing l with
  | nil => simp
  | cons c cs ih =>
    cases l with
    | nil => simp [List.isPrefixOf] at h
    | cons b bs =>
      simp only [List.cons_append, List.isPrefixOf, Bool.and_eq_true] at h ⊢
      exact ⟨h.1, ih bs h.2⟩

/-- Contrapositive form: a pattern that is not a prefix cannot become one by
being extended. -/
theorem isPrefixOf_longer_eq_false {p : List Char} (q l : List Char)
    (h : p.isPrefixOf l = false) : (p ++ q).isPrefixOf l = false := by
  cases hh : (p ++ q).isPrefixOf l with
  | false => rfl
  | true => exact absurd (isPrefixOf_append_left p q l hh) (by simp [h])

/-- Unfolding `containsSub` at a cons cell when the result is `false`. -/
theorem containsSub_cons_elim {pat : List Char} {c : Char} {rest : List Char}
    (h : containsSub pat (c :: rest) = false) :
    pat.isPrefixOf (c :: rest) = false ∧ containsSub pat rest = false := by
  simpa [containsSub] using h

/-- If the lower-cased body does not contain `wp-content`, the theme regex
cannot match anywhere (its pattern starts with that literal). -/
theorem findTheme_eq_none (l : List Char)
    (h : containsSub "wp-content".data l = false) : findTheme l = none := by
  induction l with
  | nil => rfl
  | cons c rest ih =>
    obtain ⟨hpre, hsub⟩ := containsSub_cons_elim h
    have hpre18 : "wp-content/themes/".data.isPrefixOf (c :: rest) = false := by
      have h2 := isPrefixOf_longer_eq_false "/themes/".data (c :: rest) hpre
      have heq : "wp-content".data ++ "/themes/".data
          = "wp-content/themes/".data := by decide
      rwa [heq] at h2
    simp [findTheme, matchThemeAt, hpre18, ih hsub]

/-- If the lower-cased body does not contain `wp-content`, the plugin regex
finds no match at any fuel. -/
theorem findPluginsAux_eq_nil (fuel : Nat) (l : List Char)
    (h : containsSub "wp-content".data l = false) :
    findPluginsAux fuel l = [] := by
  induction fuel generalizing l with
  | zero => rfl
  | succ n ih =>
    cases l with
    | nil => rfl
    | cons c rest =>
      obtain ⟨hpre, hsub⟩ := containsSub_cons_elim h
      have hpre19 :
          "wp-content/plugins/".data.isPrefixOf (c :: rest) = false := by
        have h2 := isPrefixOf_longer_eq_false "/plugins/".data (c :: rest) hpre
        have heq : "wp-content".data ++ "/plugins/".data
            = "wp-content/plugins/".data := by decide
        rwa [heq] at h2
      simp [findPluginsAux, matchPluginAt, hpre19, ih rest hsub]

/-- Flush sizes depend only on counts: abstract recursion computing the
sizes of the batches `processAll` flushes, from the number of remaining
URLs, the current 1-based index, and the current buffer size. -/
def flushSizesAux (total : Nat) : Nat → Nat → Nat → List Nat
  | 0, _, _ => []
  | n + 1, idx, b =>
    if BATCH_SIZE ≤ b + 1 ∨ idx = total then
      (b + 1) :: flushSizesAux total n (idx + 1) 0
    else flushSizesAux total n (idx + 1) (b + 1)

/-- The sizes of the batches flushed by the main loop are exactly
`flushSizesAux` of the counts. -/
theorem processAll_sizes (fetch : String → FetchResult) (total : Nat) :
    ∀ (urls : List String) (idx : Nat) (buf : List SiteRecord),
      (processAll fetch total urls idx buf).1.map List.length
        = flushSizesAux total urls.length idx buf.length := by
  intro urls
  induction urls with
  | nil => intro idx buf; rfl
  | cons u rest ih =>
    intro idx buf
    simp only [processAll, List.length_cons, flushSizesAux]
    by_cases hc : BATCH_SIZE ≤ (buf ++ [ensureAllKeys (check_website fetch u)]).length
        ∨ idx = total
    · have hc2 : BATCH_SIZE ≤ buf.length + 1 ∨ idx = total := by
        simpa using hc
      simp [hc, hc2, ih]
    · have hc2 : ¬(BATCH_SIZE ≤ buf.length + 1 ∨ idx = total) := by
        simpa using hc
      simp [hc, hc2, ih]

/-- One-step unfolding of the main loop at a cons cell, with the `let`
bindings expanded (used to rewrite a single iteration at a time). -/
theorem processAll_cons (fetch : String → FetchResult) (total : Nat)
    (u : String) (rest : List String) (idx : Nat) (buf : List SiteRecord) :
    processAll fetch total (u :: rest) idx buf =
      if BATCH_SIZE ≤ (buf ++ [ensureAllKeys (check_website fetch u)]).length
          ∨ idx = total then
        ((buf ++ [ensureAllKeys (check_website fetch u)])
            :: (processAll fetch total rest (idx + 1) []).1,
         (displayTitle (ensureAllKeys (check_website fetch u)),
          displayPlugins (ensureAllKeys (check_website fetch u)))
            :: (processAll fetch total rest (idx + 1) []).2)
      else
        ((processAll fetch total rest (idx + 1)
            (buf ++ [ensureAllKeys (check_website fetch u)])).1,
         (displayTitle (ensureAllKeys (check_website fetch u)),
          displayPlugins (ensureAllKeys (check_website fetch u)))
            :: (processAll fetch total rest (idx + 1)
                  (buf ++ [ensureAllKeys (check_website fetch u)])).2) := rfl

/-- Records flushed by the main loop, in order: provided the index invariant
of the loop holds (`idx + remaining = total + 1`) and at least one URL
remains, everything buffered or produced is flushed, in order. -/
theorem processAll_flatten (fetch : String → FetchResult) (total : Nat) :
    ∀ (urls : List String) (idx : Nat) (buf : List SiteRecord),
      idx + urls.length = total + 1 → urls ≠ [] →
      (processAll fetch total urls idx buf).1.flatten
        = buf ++ urls.map (fun u => ensureAllKeys (check_website fetch u)) := by
  intro urls
  induction urls with
  | nil => intro idx buf h hne; exact absurd rfl hne
  | cons u rest ih =>
    intro idx buf h hne
    match rest, h, ih with
    | [], h, _ =>
      have hidx : idx = total := by simp at h; omega
      subst hidx
      simp [processAll]
    | r1 :: rest1, h, ih =>
      have h2 : (idx + 1) + (r1 :: rest1).length = total + 1 := by
        simp at h ⊢; omega
      by_cases hc : BATCH_SIZE ≤
          (buf ++ [ensureAllKeys (check_website fetch u)]).length ∨ idx = total
      · rw [processAll_cons, if_pos hc]
        have hrec := ih (idx + 1) [] h2 (by simp)
        simp [hrec]
      · rw [processAll_cons, if_neg hc]
        have hrec := ih (idx + 1)
          (buf ++ [ensureAllKeys (check_website fetch u)]) h2 (by simp)
        simp [hrec]

/-- The display lines emitted by the main loop are the truncated summaries
of the records, one per URL, independent of batching. -/
theorem processAll_displays (fetch : String → FetchResult) (total : Nat) :
    ∀ (urls : List String) (idx : Nat) (buf : List SiteRecord),
      (processAll fetch total urls idx buf).2
        = urls.map (fun u =>
            (displayTitle (ensureAllKeys (check_website fetch u)),
             displayPlugins (ensureAllKeys (check_website fetch u)))) := by
  intro urls
  induction urls with
  | nil => intro idx buf; rfl
  | cons u rest ih =>
    intro idx buf
    simp only [processAll, List.map_cons]
    by_cases hc : BATCH_SIZE ≤
        (buf ++ [ensureAllKeys (check_website fetch u)]).length ∨ idx = total
    · have hc2 : BATCH_SIZE ≤ buf.length + 1 ∨ idx = total := by simpa using hc
      simp [hc, hc2, ih]
    · have hc2 : ¬(BATCH_SIZE ≤ buf.length + 1 ∨ idx = total) := by
        simpa using hc
      simp [hc, hc2, ih]

/-- A status string of the form `"Error: " ++ m` begins with `"Error:"`. -/
theorem statusErrorString (m : String) :
    (Status.err ("Error: " ++ m)).isErrorString = true := by
  show "Error:".data.isPrefixOf ("Error: " ++ m).data = true
  have hd : ("Error: " ++ m).data = "Error:".data ++ (' ' :: m.data) := rfl
  rw [hd]
  exact isPrefixOf_append_self _ _

/-- The whole record returned on the fetch-exception path: the defaults with
`is_https` set from the normalized URL and the error status. -/
theorem check_website_exn_eq (fetch : String → FetchResult) (url : String)
    (m : String) (t : ℚ) (hf : fetch (normalizeUrl url) = .exn m t) :
    check_website fetch url =
      { defaultRecord url with
          status := .err ("Error: " ++ m)
          is_https := pyStartsWith (normalizeUrl url) "https" } := by
  simp only [check_website, hf]
  rfl

/-- The whole record returned on the parse-exception path (status 200, soup
construction raises): the defaults with `is_https`, the measured rounded
load time, and the error status. -/
theorem check_website_parse_error_eq (fetch : String → FetchResult)
    (url : String) (t : ℚ) (resp : Response) (m : String)
    (hf : fetch (normalizeUrl url) = .ok t resp)
    (h200 : resp.status_code = 200) (hp : resp.parse = .error m) :
    check_website fetch url =
      { defaultRecord url with
          status := .err ("Error: " ++ m)
          load_time_seconds := round2 t
          is_https := pyStartsWith (normalizeUrl url) "https" } := by
  have h200b : (resp.status_code == 200) = true := by simp [h200]
  simp only [check_website, hf, h200b, if_true, hp]
  rfl

/-! ## Claims -/

/-- The proposition "an exception is raised during fetch or parse" for one
Inspector call: the GET raises, or it returns a 200 response whose parsing
raises (parsing is only attempted for status 200). -/
def exceptionRaised (fetch : String → FetchResult) (url : String) : Prop :=
  (∃ m t, fetch (normalizeUrl url) = .exn m t) ∨
  (∃ t resp m, fetch (normalizeUrl url) = .ok t resp ∧
     resp.status_code = 200 ∧ resp.parse = .error m)

/-- C1 counterexample: the claim says that on a fetch exception every field
other than `status` holds its default (booleans false), but for the input
`example.com` (normalized to `https://example.com` before the fetch) a
timeout leaves `is_https = true`, because `is_https` is assigned at line 33,
before the GET, and the except handler does not reset it. -/
theorem c1_counterexample :
    (check_website fetchTimeout "example.com").status
      = .err "Error: timed out"
    ∧ (check_website fetchTimeout "example.com").is_https = true := by
  exact ⟨by decide, by decide⟩

/-- C1 (amended): whenever an exception is raised during fetch or parse, the
status is a string beginning with `"Error:"`, `plugin_names` is exactly `""`,
and every signal field holds its default — except `is_https`, which keeps the
value derived from the normalized URL, and `load_time_seconds`, which is 0
exactly when the GET itself raised (it holds the measured rounded time when
the exception arose during parsing). -/
theorem c1_amended (fetch : String → FetchResult) (url : String)
    (h : exceptionRaised fetch url) :
    (check_website fetch url).status.isErrorString = true
    ∧ (check_website fetch url).plugin_names = ""
    ∧ (check_website fetch url).site_title = ""
    ∧ (check_website fetch url).meta_description = ""
    ∧ (check_website fetch url).theme = ""
    ∧ (check_website fetch url).copyright_year = ""
    ∧ (check_website fetch url).is_wordpress = false
    ∧ (check_website fetch url).plugin_count = 0
    ∧ (check_website fetch url).has_woocommerce = false
    ∧ (check_website fetch url).has_shopify = false
    ∧ (check_website fetch url).has_elementor = false
    ∧ (check_website fetch url).has_beaver_builder = false
    ∧ (check_website fetch url).has_analytics = false
    ∧ (check_website fetch url).has_pixel = false
    ∧ (check_website fetch url).has_viewport = false
    ∧ (check_website fetch url).is_https
        = pyStartsWith (normalizeUrl url) "https"
    ∧ (∀ m t, fetch (normalizeUrl url) = .exn m t →
        (check_website fetch url).load_time_seconds = 0)
    ∧ (∀ t resp, fetch (normalizeUrl url) = .ok t resp →
        (check_website fetch url).load_time_seconds = round2 t) := by
  rcases h with ⟨m, t, hf⟩ | ⟨t, resp, m, hf, h200, hp⟩
  · rw [check_website_exn_eq fetch url m t hf]
    refine ⟨statusErrorString m, rfl, rfl, rfl, rfl, rfl, rfl, rfl, rfl, rfl,
      rfl, rfl, rfl, rfl, rfl, rfl, fun m1 t1 hf2 => rfl,
      fun t1 resp1 hf2 => ?_⟩
    rw [hf] at hf2
    cases hf2
  · rw [check_website_parse_error_eq fetch url t resp m hf h200 hp]
    refine ⟨statusErrorString m, rfl, rfl, rfl, rfl, rfl, rfl, rfl, rfl, rfl,
      rfl, rfl, rfl, rfl, rfl, rfl, fun m1 t1 hf2 => ?_, 
      fun t1 resp1 hf2 => ?_⟩
    · rw [hf] at hf2
      cases hf2
    · rw [hf] at hf2
      cases hf2
      rfl

/-- C1 witness: `c1_amended` instantiated at a timeout on `example.com`. -/
theorem c1_witness :
    exceptionRaised fetchTimeout "example.com"
    ∧ (check_website fetchTimeout "example.com").status.isErrorString = true :=
  ⟨Or.inl ⟨"timed out", 10, rfl⟩,
   (c1_amended fetchTimeout "example.com" (Or.inl ⟨"timed out", 10, rfl⟩)).1⟩

/-- C2 counterexample: `httpfoo.com` has no URI scheme (no `:` at all), yet
because it starts with the four letters `http` the code does not prepend
`https://`: the fetched URL is `httpfoo.com` itself and `is_https` is false.
The claim's "lacks a recognized URI scheme" does not coincide with the
code's `startswith('http')` test. -/
theorem c2_counterexample :
    hasRecognizedScheme "httpfoo.com" = false
    ∧ pyStartsWith (normalizeUrl "httpfoo.com") "https://" = false
    ∧ (check_website fetchTimeout "httpfoo.com").is_https = false := by
  exact ⟨by decide, by decide, by decide⟩

/-- C2 (amended): for every input URL that does not start with `http`, the
normalized URL (the one used for the fetch) begins with `https://` and the
returned record's `is_https` is true; `is_https` is computed as a
`startswith("https")` test on the normalized URL. -/
theorem c2_amended (url : String) (fetch : String → FetchResult)
    (h : pyStartsWith url "http" = false) :
    pyStartsWith (normalizeUrl url) "https://" = true
    ∧ (check_website fetch url).is_https = true := by
  have hn : normalizeUrl url = "https://" ++ url := by
    simp [normalizeUrl, h]
  constructor
  · rw [hn]
    show "https://".data.isPrefixOf ("https://" ++ url).data = true
    have hd : ("https://" ++ url).data = "https://".data ++ url.data := rfl
    rw [hd]
    exact isPrefixOf_append_self _ _
  · rw [check_website_is_https_eq fetch url, hn]
    show "https".data.isPrefixOf ("https://" ++ url).data = true
    have hd : ("https://" ++ url).data
        = "https".data ++ ("://".data ++ url.data) := by
      have h1 : ("https://" ++ url).data = "https://".data ++ url.data := rfl
      have h2 : "https://".data = "https".data ++ "://".data := by decide
      rw [h1, h2, List.append_assoc]
    rw [hd]
    exact isPrefixOf_append_self _ _

/-- C2 witness: `c2_amended` at `example.com` with a timing-out fetch. -/
theorem c2_witness :
    pyStartsWith "example.com" "http" = false
    ∧ (pyStartsWith (normalizeUrl "example.com") "https://" = true
       ∧ (check_website fetchTimeout "example.com").is_https = true) :=
  ⟨by decide, c2_amended "example.com" fetchTimeout (by decide)⟩

/-- C3 counterexample: `example.com` lacks a recognized URI scheme, so the
claim requires the record's `url` field to be `https://example.com`; but the
code stores the original argument in the dict (line 9) before rebinding the
local variable (line 31), so the field holds `example.com` unchanged. -/
theorem c3_counterexample :
    hasRecognizedScheme "example.com" = false
    ∧ (check_website fetchTimeout "example.com").url = "example.com"
    ∧ "example.com" ≠ "https://example.com" := by
  exact ⟨by decide, by decide, by decide⟩

/-- C3 (amended): the `url` field of the returned record always equals the
original input unchanged; the `https://`-prefixed form is used only for the
fetch and the `is_https` test, never stored. -/
theorem c3_amended (fetch : String → FetchResult) (url : String) :
    (check_website fetch url).url = url :=
  check_website_url_eq fetch url

/-- C4 counterexample: a GET that raises a timeout after 10 seconds is a
fetch that started, yet `load_time_seconds` is 0 and not `round2 10 = 10`:
`end_time` (line 37) is never reached when `requests.get` raises, so no
elapsed time is recorded on that path. -/
theorem c4_counterexample :
    (check_website fetchTimeout "example.com").load_time_seconds = 0
    ∧ round2 10 = 10
    ∧ (10 : ℚ) ≠ 0 := by
  refine ⟨by decide, by norm_num [round2], by norm_num⟩

/-- C4 (amended): `load_time_seconds` equals the measured elapsed time
rounded to 2 decimals exactly when the GET returns a response (whatever the
status, and also when parsing subsequently fails); when the GET raises,
`load_time_seconds` stays 0 even though the fetch started. -/
theorem c4_amended (fetch : String → FetchResult) (url : String) :
    (∀ t resp, fetch (normalizeUrl url) = .ok t resp →
      (check_website fetch url).load_time_seconds = round2 t)
    ∧ (∀ m t, fetch (normalizeUrl url) = .exn m t →
      (check_website fetch url).load_time_seconds = 0) :=
  ⟨fun t resp h => check_website_load_time_ok fetch url t resp h,
   fun m t h => check_website_load_time_exn fetch url m t h⟩

/-- C4 witness: `c4_amended` at a 1-second successful fetch and at a
timing-out fetch. -/
theorem c4_witness :
    (check_website (mkFetch200 "") "a.com").load_time_seconds = round2 1
    ∧ (check_website fetchTimeout "a.com").load_time_seconds = 0 :=
  ⟨(c4_amended (mkFetch200 "") "a.com").1 1
      { status_code := 200, text := "", parse := .ok soupEmpty } rfl,
   (c4_amended fetchTimeout "a.com").2 "timed out" 10 rfl⟩

/-- C5: with an input of 250 URLs and the fixed batch size of 100, the main
loop performs exactly 3 flushes, of 100, 100 and 50 records, and the output
file holds the header row followed by exactly 250 data rows (the flushed
batches in order). -/
theorem c5_batching (fetch : String → FetchResult) (rows : List (List String))
    (h : (readWebsites rows).length = 250) :
    (mainRun fetch (some rows)).flushes.map List.length = [100, 100, 50]
    ∧ (mainRun fetch (some rows)).flushes.flatten.length = 250
    ∧ (mainRun fetch (some rows)).outputFile
        = some (OutRow.header fieldnames
            :: (mainRun fetch (some rows)).flushes.flatten.map OutRow.data) := by
  have hne : readWebsites rows ≠ [] := by
    intro hx
    rw [hx] at h
    simp at h
  have hsz := processAll_sizes fetch (readWebsites rows).length
    (readWebsites rows) 1 []
  have hfl := processAll_flatten fetch (readWebsites rows).length
    (readWebsites rows) 1 [] (by omega) hne
  refine ⟨?_, ?_, rfl⟩
  · show (processAll fetch (readWebsites rows).length
        (readWebsites rows) 1 []).1.map List.length = [100, 100, 50]
    rw [hsz, h]
    decide
  · show (processAll fetch (readWebsites rows).length
        (readWebsites rows) 1 []).1.flatten.length = 250
    rw [hfl]
    simp [h]

set_option maxRecDepth 10000 in
/-- C5 witness: `c5_batching` at 250 one-cell rows with a timing-out
fetch. -/
theorem c5_witness :
    (readWebsites (List.replicate 250 [""])).length = 250
    ∧ (mainRun fetchTimeout (some (List.replicate 250 [""]))).flushes.map
        List.length = [100, 100, 50] :=
  ⟨by decide,
   (c5_batching fetchTimeout (List.replicate 250 [""]) (by decide)).1⟩

/-- C6 counterexample: the claim quantifies over every record, but plugin
extraction runs only for status-200 responses: a 404 response whose body
contains `wp-content/plugins/foo/` yields `plugin_count = 0` although the
deduplicated set of slugs matched in the body has cardinality 1. -/
theorem c6_counterexample :
    (check_website fetch404Plugins "x.com").plugin_count = 0
    ∧ (findPlugins (pyLower "wp-content/plugins/foo/").data).dedup.length = 1
    ∧ (check_website fetch404Plugins "x.com").plugin_count
        ≠ (findPlugins (pyLower "wp-content/plugins/foo/").data).dedup.length
    := by
  exact ⟨by decide, by decide, by decide⟩

/-- C6 (amended): in every record produced from a 200 response,
`plugin_count` equals the cardinality of the deduplicated set of slugs
matched by the plugin path pattern in the (lower-cased) body — duplicates
never inflate the count — and `plugin_names` joins exactly the members of
that same set (the dedup list repeats no element and has the same members as
the set). -/
theorem c6_amended (fetch : String → FetchResult) (url : String) (t : ℚ)
    (resp : Response) (soup : Soup)
    (hf : fetch (normalizeUrl url) = .ok t resp)
    (h200 : resp.status_code = 200)
    (hp : resp.parse = .ok soup) :
    (check_website fetch url).plugin_count
      = (findPlugins (pyLower resp.text).data).toFinset.card
    ∧ (check_website fetch url).plugin_names
      = pyJoin ", " ((findPlugins (pyLower resp.text).data).dedup.map
          (fun s => String.mk s))
    ∧ (findPlugins (pyLower resp.text).data).dedup.Nodup
    ∧ (findPlugins (pyLower resp.text).data).dedup.toFinset
      = (findPlugins (pyLower resp.text).data).toFinset := by
  have h200b : (resp.status_code == 200) = true := by simp [h200]
  have hfin : (findPlugins (pyLower resp.text).data).dedup.toFinset
      = (findPlugins (pyLower resp.text).data).toFinset := by
    apply Finset.ext
    intro a
    simp [List.mem_toFinset, List.mem_dedup]
  refine ⟨?_, ?_, List.nodup_dedup _, hfin⟩
  · have hcw : (check_website fetch url).plugin_count
        = (findPlugins (pyLower resp.text).data).dedup.length := by
      simp only [check_website, hf, h200b, if_true, hp]
      rfl
    rw [hcw, List.card_toFinset]
  · simp only [check_website, hf, h200b, if_true, hp]
    rfl

/-- C6 witness: `c6_amended` at a 200 body repeating slug `a` and adding
slug `b`; the count is 2, not 3. -/
theorem c6_witness :
    fetchDup (normalizeUrl "x.com") = .ok 1 respDup
    ∧ (check_website fetchDup "x.com").plugin_count
        = (findPlugins (pyLower respDup.text).data).toFinset.card
    ∧ (check_website fetchDup "x.com").plugin_count = 2 :=
  ⟨rfl, (c6_amended fetchDup "x.com" 1 respDup soupEmpty rfl rfl rfl).1,
   by decide⟩

/-- C7: copyright-year extraction on 200 responses: a body containing
`© 2021 Example Corp` yields `"2021"`; `Copyright 1999 Example` (year
outside 2000-2099) yields `""`; and when several in-range years follow the
keyword, the first match wins (`copyright 2050 and 2021` yields `"2050"`). -/
theorem c7_copyright_extraction :
    (check_website (mkFetch200 "© 2021 Example Corp") "x.com").copyright_year
      = "2021"
    ∧ (check_website (mkFetch200 "Copyright 1999 Example")
        "x.com").copyright_year = ""
    ∧ (check_website (mkFetch200 "copyright 2050 and 2021")
        "x.com").copyright_year = "2050" := by
  exact ⟨by decide, by decide, by decide⟩

/-- C8 counterexample: read literally ("the body contains neither the
substring `wp-content` ..."), the claim fails: a 200 body consisting of
`WP-CONTENT` does not contain the lower-case substring `wp-content`, and it
has no generator meta tag, yet `is_wordpress` is true because the test runs
on the lower-cased body. -/
theorem c8_counterexample :
    containsSub "wp-content".data "WP-CONTENT".data = false
    ∧ (findGeneratorWP soupEmpty.metas) = none
    ∧ (check_website fetchUpperWP "x.com").is_wordpress = true := by
  exact ⟨by decide, rfl, by decide⟩

/-- C8 (amended): for every 200 response whose body contains the substring
`wp-content` in no letter casing (equivalently: whose lower-cased body does
not contain `wp-content`) and that has no generator meta tag matching
"WordPress" case-insensitively, the record has `is_wordpress = false`,
`theme = ""`, `plugin_count = 0` and `plugin_names = ""`. -/
theorem c8_amended (fetch : String → FetchResult) (url : String) (t : ℚ)
    (resp : Response) (soup : Soup)
    (hf : fetch (normalizeUrl url) = .ok t resp)
    (h200 : resp.status_code = 200)
    (hp : resp.parse = .ok soup)
    (hwc : pyContains (pyLower resp.text) "wp-content" = false)
    (hgen : findGeneratorWP soup.metas = none) :
    (check_website fetch url).is_wordpress = false
    ∧ (check_website fetch url).theme = ""
    ∧ (check_website fetch url).plugin_count = 0
    ∧ (check_website fetch url).plugin_names = "" := by
  have hcs : containsSub "wp-content".data (pyLower resp.text).data = false :=
    hwc
  have h200b : (resp.status_code == 200) = true := by simp [h200]
  have hth := findTheme_eq_none (pyLower resp.text).data hcs
  have hpl := findPluginsAux_eq_nil (pyLower resp.text).data.length
    (pyLower resp.text).data hcs
  have hcw : check_website fetch url = inspectBody
      { defaultRecord url with
          load_time_seconds := round2 t
          status := .code resp.status_code
          is_https := pyStartsWith (normalizeUrl url) "https" }
      resp.text soup := by
    simp only [check_website, hf, h200b, if_true, hp]
  rw [hcw]
  simp only [inspectBody, hwc, Bool.false_eq_true, if_false, hgen, hth,
    findPlugins, hpl]
  exact ⟨rfl, rfl, rfl, rfl⟩

/-- C8 witness: `c8_amended` at a 200 body `hello world` with no meta
tags. -/
theorem c8_witness :
    pyContains (pyLower "hello world") "wp-content" = false
    ∧ (check_website (mkFetch200 "hello world") "x.com").is_wordpress
        = false :=
  ⟨by decide,
   (c8_amended (mkFetch200 "hello world") "x.com" 1
      { status_code := 200, text := "hello world", parse := .ok soupEmpty }
      soupEmpty rfl rfl rfl (by decide) rfl).1⟩

/-- C9: when the input source does not exist, the run reports the error and
returns before the header-writing step, so the output file is never created
and no flush happens. -/
theorem c9_missing_input (fetch : String → FetchResult) :
    (mainRun fetch none).outputFile = none
    ∧ (mainRun fetch none).errorReported = true
    ∧ (mainRun fetch none).flushes = [] :=
  ⟨rfl, rfl, rfl⟩

/-- C10: the records persisted by the Batch Runner are exactly the records
the Inspector returned, in input order — the key-defaulting loop is the
identity on complete records and nothing else touches them — while the
50/60-character truncations appear only in the operator display lines, never
in the output sink. -/
theorem c10_no_mutation (fetch : String → FetchResult)
    (rows : List (List String)) :
    (mainRun fetch (some rows)).flushes.flatten
      = (readWebsites rows).map (fun u => check_website fetch u)
    ∧ (mainRun fetch (some rows)).outputFile
      = some (OutRow.header fieldnames
          :: ((readWebsites rows).map
              (fun u => check_website fetch u)).map OutRow.data)
    ∧ (mainRun fetch (some rows)).displays
      = (readWebsites rows).map
          (fun u => (displayTitle (check_website fetch u),
                     displayPlugins (check_website fetch u))) := by
  have hd := processAll_displays fetch (readWebsites rows).length
    (readWebsites rows) 1 []
  simp only [mainRun]
  by_cases hne : readWebsites rows = []
  · rw [hne] at hd ⊢
    simp [processAll]
  · have hfl := processAll_flatten fetch (readWebsites rows).length
      (readWebsites rows) 1 [] (by omega) hne
    refine ⟨?_, ?_, ?_⟩
    · rw [hfl]
      simp [ensureAllKeys]
    · rw [hfl]
      simp [ensureAllKeys]
    · rw [hd]
      simp [ensureAllKeys]
